import Mathlib

/-!
Shallow embedding of the streaming ECG classifier core (`src/ecg_core.py`)
of the pulse-ecg-monitor repository, together with the snapshot copy-out
used by the report/export layer (`src/app.py`).

Modelling conventions:
- Python `float` values (timestamps, RR/QT/QRS intervals, variance, the
  numeric literals 0.25, 0.45, ...) are embedded as exact rationals `ℚ`;
  Python `int` as `ℤ`.
- A `collections.deque` with `maxlen = cap` is embedded as a `List` together
  with the bounded-append operation `pushBounded cap`: appending to a full
  deque silently evicts the oldest (leftmost) element.  The `maxlen` fields
  of the configuration are `ℕ` (a negative `maxlen` makes `deque` raise at
  session construction, so no session with a negative capacity exists).
- The `event_state` dict maps names to `True` only, and keys are removed on
  deactivation, so it is embedded as the insertion-ordered list of its keys
  (Python dicts preserve insertion order; re-assigning an existing key keeps
  its position).
- `event_counts` (a `defaultdict(int)`) is embedded as a total function
  `String → ℕ` that is `0` outside the updated keys.
- Python truthiness tests are embedded as written in the source:
  `if self.last_peak_time:` is falsy both for `None` and for `0.0`, and
  `self.current_bpm and ...` is falsy when `current_bpm = 0`.
- `int(bpm)` (float-to-int conversion) truncates toward zero: `pyInt`.
-/

namespace PulseECG

/-- Python `int(x)` on an exact rational: truncation toward zero. -/
def pyInt (q : ℚ) : ℤ := if 0 ≤ q then ⌊q⌋ else -⌊-q⌋

/-- Python `sum(xs)` over rationals. -/
def pySum (xs : List ℚ) : ℚ := xs.sum

/-- Append to a `deque(maxlen = cap)`: the new element goes to the right and
the prefix is dropped down to the last `cap` elements (for a deque that never
exceeded its capacity this drops at most the single oldest element). -/
def pushBounded {α : Type} (cap : ℕ) (xs : List α) (x : α) : List α :=
  (xs ++ [x]).drop ((xs.length + 1) - cap)

/-- `CARDIAC_EVENTS` (src/ecg_core.py lines 6-19): the fixed clinical event
vocabulary; used only through membership tests. -/
def CARDIAC_EVENTS : List String :=
  ["Bradycardia", "Tachycardia", "Ventricular Tachycardia",
   "Asystole / Flatline", "Irregular Rhythm", "Sinus Node Dysfunction",
   "First-Degree AV Block (possible)", "Bundle Branch Block (possible)",
   "Long QT (possible)", "Short QT (possible)",
   "Early Repolarization / ST Elevation (possible)", "Myocarditis (possible)"]

/-- `ECGConfig` (src/ecg_core.py lines 22-34).  Numeric thresholds are `ℤ`
(Python ints), `asystole_sec` is a rational, and the deque capacities are
`ℕ`. -/
structure ECGConfig where
  sample_rate : ℤ
  r_threshold : ℤ
  brady_bpm : ℤ
  tachy_bpm : ℤ
  vtach_bpm : ℤ
  asystole_sec : ℚ
  buffer_sec : ℤ
  bpm_maxlen : ℕ
  rr_maxlen : ℕ
  qrs_maxlen : ℕ
  qt_maxlen : ℕ
deriving Repr, DecidableEq

/-- The `ecg_maxlen` property (src/ecg_core.py lines 36-38):
`max(1000, sample_rate * buffer_sec)`. -/
def ECGConfig.ecg_maxlen (c : ECGConfig) : ℕ :=
  (max 1000 (c.sample_rate * c.buffer_sec)).toNat

/-- The generated dataclass constructor of `ECGConfig`: it assigns the
eleven fields and contains no validation code, hence no raising path.  The
`Except` result type records the possibility of a construction-time error
demanded by the spec; the body shows the source has none. -/
def ECGConfig.construct (sample_rate r_threshold brady_bpm tachy_bpm vtach_bpm : ℤ)
    (asystole_sec : ℚ) (buffer_sec : ℤ) (bpm_maxlen rr_maxlen qrs_maxlen qt_maxlen : ℕ) :
    Except String ECGConfig :=
  .ok ⟨sample_rate, r_threshold, brady_bpm, tachy_bpm, vtach_bpm,
       asystole_sec, buffer_sec, bpm_maxlen, rr_maxlen, qrs_maxlen, qt_maxlen⟩

/-- The default configuration (the literal defaults of the env lookups in
src/ecg_core.py lines 24-34). -/
def defaultConfig : ECGConfig :=
  ⟨250, 15000, 50, 100, 150, 3.5, 120, 1200, 60, 30, 30⟩

/-- `ECGState` (src/ecg_core.py lines 41-66) after `__post_init__`: the
deques are lists whose capacities are fixed by the config (see the `*Cap`
projections below). -/
structure ECGState where
  config : ECGConfig
  ecg_data : List ℤ
  timestamps : List ℚ
  bpm_history : List ℤ
  bpm_timestamps : List ℚ
  rr_intervals : List ℚ
  qrs_widths : List ℚ
  qt_intervals : List ℚ
  event_state : List String
  event_counts : String → ℕ
  event_timeline : List String
  current_bpm : ℤ
  last_peak_time : Option ℚ
  last_signal_time : ℚ

/-- Capacity the `ecg_data` deque was constructed with (line 59). -/
def ECGState.ecgDataCap (s : ECGState) : ℕ := s.config.ecg_maxlen

/-- Capacity the `timestamps` deque was constructed with (line 60). -/
def ECGState.timestampsCap (s : ECGState) : ℕ := s.config.ecg_maxlen

/-- Capacity the `event_timeline` deque was constructed with (line 66). -/
def ECGState.eventTimelineCap (s : ECGState) : ℕ := s.config.ecg_maxlen

/-- A fresh session: dataclass construction plus `__post_init__`
(src/ecg_core.py lines 41-66).  `t0` is the `time.time()` default of
`last_signal_time`. -/
def initState (c : ECGConfig) (t0 : ℚ) : ECGState :=
  { config := c
    ecg_data := []
    timestamps := []
    bpm_history := []
    bpm_timestamps := []
    rr_intervals := []
    qrs_widths := []
    qt_intervals := []
    event_state := []
    event_counts := fun _ => 0
    event_timeline := []
    current_bpm := 0
    last_peak_time := none
    last_signal_time := t0 }

/-- `ECGState.reset` (src/ecg_core.py lines 68-81); `now` is the
`time.time()` value assigned to `last_signal_time`. -/
def ECGState.reset (s : ECGState) (now : ℚ) : ECGState :=
  { config := s.config
    ecg_data := []
    timestamps := []
    bpm_history := []
    bpm_timestamps := []
    rr_intervals := []
    qrs_widths := []
    qt_intervals := []
    event_state := []
    event_counts := fun _ => 0
    event_timeline := []
    current_bpm := 0
    last_peak_time := none
    last_signal_time := now }

/-- `ECGState.set_event` (src/ecg_core.py lines 83-88): on a true condition
the name is marked active (insertion-ordered; an already-present key keeps
its position) and its count is incremented; on a false condition the key is
removed and the count untouched. -/
def ECGState.set_event (s : ECGState) (name : String) (condition : Bool) : ECGState :=
  if condition then
    { s with
      event_state := if name ∈ s.event_state then s.event_state else s.event_state ++ [name]
      event_counts := fun n => if n = name then s.event_counts n + 1 else s.event_counts n }
  else
    { s with event_state := s.event_state.filter (fun n => n ≠ name) }

/-- `ECGState.active_cardiac_flags` (src/ecg_core.py lines 90-91). -/
def ECGState.active_cardiac_flags (s : ECGState) : List String :=
  s.event_state.filter (fun e => e ∈ CARDIAC_EVENTS)

/-- The `myocarditis_score` accumulation (src/ecg_core.py lines 150-156):
how many of Tachycardia, Irregular Rhythm and Early Repolarization are
currently active. -/
def myocarditisScore (s : ECGState) : ℕ :=
  (if "Tachycardia" ∈ s.event_state then 1 else 0) +
  (if "Irregular Rhythm" ∈ s.event_state then 1 else 0) +
  (if "Early Repolarization / ST Elevation (possible)" ∈ s.event_state then 1 else 0)

/-- The four rate/asystole conditions of `detect_events`
(src/ecg_core.py lines 117-124).  The truthy test `self.current_bpm and ...`
is `current_bpm ≠ 0 ∧ ...`. -/
def ECGState.detectRates (s : ECGState) (now : ℚ) : ECGState :=
  let s1 := s.set_event "Bradycardia"
    (s.current_bpm ≠ 0 ∧ s.current_bpm < s.config.brady_bpm : Bool)
  let s2 := s1.set_event "Tachycardia"
    (s1.current_bpm ≠ 0 ∧ s1.current_bpm > s1.config.tachy_bpm : Bool)
  let s3 := s2.set_event "Ventricular Tachycardia"
    (s2.current_bpm ≠ 0 ∧ s2.current_bpm > s2.config.vtach_bpm : Bool)
  s3.set_event "Asystole / Flatline"
    (now - s3.last_signal_time > s3.config.asystole_sec : Bool)

/-- The RR-statistics block of `detect_events` (src/ecg_core.py
lines 126-132): population mean/variance over the retained RR intervals,
evaluated only when more than 6 are retained. -/
def ECGState.detectRhythm (s : ECGState) : ECGState :=
  if 6 < s.rr_intervals.length then
    let mean_rr := pySum s.rr_intervals / s.rr_intervals.length
    let variance :=
      pySum (s.rr_intervals.map (fun r => (r - mean_rr) ^ 2)) / s.rr_intervals.length
    let s5 := s.set_event "Irregular Rhythm" (variance > 0.02 : Bool)
    let s6 := s5.set_event "Sinus Node Dysfunction"
      (variance > 0.03 ∧ mean_rr > 1.2 : Bool)
    s6.set_event "First-Degree AV Block (possible)"
      (mean_rr > 1.0 ∧ variance < 0.005 : Bool)
  else s

/-- The QRS-width block of `detect_events` (src/ecg_core.py lines 134-138). -/
def ECGState.detectQRSBlock (s : ECGState) : ECGState :=
  if 5 < s.qrs_widths.length then
    s.set_event "Bundle Branch Block (possible)"
      (pySum s.qrs_widths / s.qrs_widths.length > 0.14 : Bool)
  else s

/-- The QT block of `detect_events` (src/ecg_core.py lines 140-143). -/
def ECGState.detectQTBlock (s : ECGState) : ECGState :=
  if 5 < s.qt_intervals.length then
    let avg_qt := pySum s.qt_intervals / s.qt_intervals.length
    let s9 := s.set_event "Long QT (possible)" (avg_qt > 0.48 : Bool)
    s9.set_event "Short QT (possible)" (avg_qt < 0.32 : Bool)
  else s

/-- The early-repolarization condition of `detect_events`
(src/ecg_core.py lines 145-148). -/
def ECGState.detectRepol (s : ECGState) (value : ℤ) : ECGState :=
  s.set_event "Early Repolarization / ST Elevation (possible)"
    ((value : ℚ) > (s.config.r_threshold : ℚ) * 1.25 ∧ s.current_bpm < 100 : Bool)

/-- The composite myocarditis step of `detect_events`
(src/ecg_core.py lines 150-158), reading the active set already updated by
the earlier steps of the same pass. -/
def ECGState.detectMyo (s : ECGState) : ECGState :=
  s.set_event "Myocarditis (possible)" (myocarditisScore s ≥ 2 : Bool)

/-- `ECGState.detect_events` (src/ecg_core.py lines 116-158): the blocks
above in source order. -/
def ECGState.detect_events (s : ECGState) (value : ℤ) (now : ℚ) : ECGState :=
  (((((s.detectRates now).detectRhythm).detectQRSBlock).detectQTBlock).detectRepol
    value).detectMyo

/-- `ECGState.add_sample` (src/ecg_core.py lines 93-114).  The guard on the
previous beat is the Python truthy test `if self.last_peak_time:`, which is
false both for `None` and for the timestamp `0.0`. -/
def ECGState.add_sample (s : ECGState) (value : ℤ) (t : ℚ) : ECGState :=
  let s0 := { s with
    ecg_data := pushBounded s.config.ecg_maxlen s.ecg_data value
    timestamps := pushBounded s.config.ecg_maxlen s.timestamps t }
  let s2 :=
    if value > s0.config.r_threshold then
      let s1 :=
        match s0.last_peak_time with
        | none => s0
        | some p =>
          if p = 0 then s0
          else
            let rr := t - p
            if rr > 0.25 then
              let bpm := 60 / rr
              { s0 with
                rr_intervals := pushBounded s0.config.rr_maxlen s0.rr_intervals rr
                current_bpm := pyInt bpm
                bpm_history := pushBounded s0.config.bpm_maxlen s0.bpm_history (pyInt bpm)
                bpm_timestamps := pushBounded s0.config.bpm_maxlen s0.bpm_timestamps t
                qt_intervals := pushBounded s0.config.qt_maxlen s0.qt_intervals (rr * 0.45)
                qrs_widths := pushBounded s0.config.qrs_maxlen s0.qrs_widths
                  (0.08 + |((value : ℚ) - (s0.config.r_threshold : ℚ))| / 100000) }
            else s0
      { s1 with last_peak_time := some t, last_signal_time := t }
    else s0
  let s3 := s2.detect_events value t
  { s3 with
    event_timeline := pushBounded s3.config.ecg_maxlen s3.event_timeline
      (String.intercalate "," s3.active_cardiac_flags) }

/-- The raw-series snapshot taken by the export layer
(`list(state.ecg_data)`, src/app.py line 158): a copy of the buffer. -/
def snapshotRaw (s : ECGState) : List ℤ := s.ecg_data

/-- One externally triggered operation on the session: a producer sample or
a reset (the reset carrying its `time.time()` value). -/
inductive SessionOp : Type
  | sample (value : ℤ) (t : ℚ)
  | reset (now : ℚ)

/-- Run a sequence of session operations left to right. -/
def runOps (s : ECGState) : List SessionOp → ECGState
  | [] => s
  | .sample v t :: rest => runOps (s.add_sample v t) rest
  | .reset now :: rest => runOps (s.reset now) rest

/-- Checked rational division: Python `/` raises `ZeroDivisionError` on a
zero divisor; otherwise it is exact division in this model. -/
def divE (a b : ℚ) : Except String ℚ :=
  if b = 0 then .error "ZeroDivisionError" else .ok (a / b)

/-- The RR-statistics block with its two divisions routed through `divE`. -/
def ECGState.detectRhythmE (s : ECGState) : Except String ECGState :=
  if 6 < s.rr_intervals.length then do
    let mean_rr ← divE (pySum s.rr_intervals) s.rr_intervals.length
    let variance ←
      divE (pySum (s.rr_intervals.map (fun r => (r - mean_rr) ^ 2))) s.rr_intervals.length
    let s5 := s.set_event "Irregular Rhythm" (variance > 0.02 : Bool)
    let s6 := s5.set_event "Sinus Node Dysfunction"
      (variance > 0.03 ∧ mean_rr > 1.2 : Bool)
    pure (s6.set_event "First-Degree AV Block (possible)"
      (mean_rr > 1.0 ∧ variance < 0.005 : Bool))
  else pure s

/-- The QRS-width block with its division routed through `divE`. -/
def ECGState.detectQRSBlockE (s : ECGState) : Except String ECGState :=
  if 5 < s.qrs_widths.length then do
    let mean_qrs ← divE (pySum s.qrs_widths) s.qrs_widths.length
    pure (s.set_event "Bundle Branch Block (possible)" (mean_qrs > 0.14 : Bool))
  else pure s

/-- The QT block with its division routed through `divE`. -/
def ECGState.detectQTBlockE (s : ECGState) : Except String ECGState :=
  if 5 < s.qt_intervals.length then do
    let avg_qt ← divE (pySum s.qt_intervals) s.qt_intervals.length
    let s9 := s.set_event "Long QT (possible)" (avg_qt > 0.48 : Bool)
    pure (s9.set_event "Short QT (possible)" (avg_qt < 0.32 : Bool))
  else pure s

/-- `detect_events` with every division it performs routed through `divE`,
so the result is an error exactly when some division in the source would
raise.  Used to show the detection pass is total. -/
def ECGState.detect_eventsE (s : ECGState) (value : ℤ) (now : ℚ) :
    Except String ECGState := do
  let s7 ← (s.detectRates now).detectRhythmE
  let s8 ← s7.detectQRSBlockE
  let s10 ← s8.detectQTBlockE
  pure ((s10.detectRepol value).detectMyo)

/-- `add_sample` with every division routed through `divE` (including the
detection pass): the result is an error exactly when some division in the
source would raise. -/
def ECGState.add_sampleE (s : ECGState) (value : ℤ) (t : ℚ) :
    Except String ECGState := do
  let s0 := { s with
    ecg_data := pushBounded s.config.ecg_maxlen s.ecg_data value
    timestamps := pushBounded s.config.ecg_maxlen s.timestamps t }
  let s2 ←
    if value > s0.config.r_threshold then do
      let s1 ←
        match s0.last_peak_time with
        | none => pure s0
        | some p =>
          if p = 0 then pure s0
          else
            let rr := t - p
            if rr > 0.25 then do
              let bpm ← divE 60 rr
              let overshoot ← divE (|((value : ℚ) - (s0.config.r_threshold : ℚ))|) 100000
              pure { s0 with
                rr_intervals := pushBounded s0.config.rr_maxlen s0.rr_intervals rr
                current_bpm := pyInt bpm
                bpm_history := pushBounded s0.config.bpm_maxlen s0.bpm_history (pyInt bpm)
                bpm_timestamps := pushBounded s0.config.bpm_maxlen s0.bpm_timestamps t
                qt_intervals := pushBounded s0.config.qt_maxlen s0.qt_intervals (rr * 0.45)
                qrs_widths := pushBounded s0.config.qrs_maxlen s0.qrs_widths
                  (0.08 + overshoot) }
            else pure s0
      pure { s1 with last_peak_time := some t, last_signal_time := t }
    else pure s0
  let s3 ← s2.detect_eventsE value t
  pure { s3 with
    event_timeline := pushBounded s3.config.ecg_maxlen s3.event_timeline
      (String.intercalate "," s3.active_cardiac_flags) }

/-- All eight bounded buffers are within the capacities their deques were
constructed with. -/
def BufBound (s : ECGState) : Prop :=
  s.ecg_data.length ≤ s.config.ecg_maxlen ∧
  s.timestamps.length ≤ s.config.ecg_maxlen ∧
  s.event_timeline.length ≤ s.config.ecg_maxlen ∧
  s.bpm_history.length ≤ s.config.bpm_maxlen ∧
  s.bpm_timestamps.length ≤ s.config.bpm_maxlen ∧
  s.rr_intervals.length ≤ s.config.rr_maxlen ∧
  s.qrs_widths.length ≤ s.config.qrs_maxlen ∧
  s.qt_intervals.length ≤ s.config.qt_maxlen

/-- The alignment invariant of the spec: the per-sample buffers have equal
length, and so do the per-beat BPM buffers. -/
def Aligned (s : ECGState) : Prop :=
  s.ecg_data.length = s.timestamps.length ∧
  s.timestamps.length = s.event_timeline.length ∧
  s.bpm_history.length = s.bpm_timestamps.length

/-- `s'` is `s` with at most the event bookkeeping (`event_state`,
`event_counts`) changed. -/
def EventUpdateOnly (s s' : ECGState) : Prop :=
  s'.config = s.config ∧
  s'.ecg_data = s.ecg_data ∧
  s'.timestamps = s.timestamps ∧
  s'.bpm_history = s.bpm_history ∧
  s'.bpm_timestamps = s.bpm_timestamps ∧
  s'.rr_intervals = s.rr_intervals ∧
  s'.qrs_widths = s.qrs_widths ∧
  s'.qt_intervals = s.qt_intervals ∧
  s'.event_timeline = s.event_timeline ∧
  s'.current_bpm = s.current_bpm ∧
  s'.last_peak_time = s.last_peak_time ∧
  s'.last_signal_time = s.last_signal_time

/-- All event counts of `s` are below those of `s'`. -/
def CountsLe (s s' : ECGState) : Prop :=
  ∀ name : String, s.event_counts name ≤ s'.event_counts name

theorem pushBounded_length {α : Type} (cap : ℕ) (xs : List α) (x : α) :
    (pushBounded cap xs x).length = min (xs.length + 1) cap := by
  simp [pushBounded]
  omega

theorem pushBounded_length_le {α : Type} (cap : ℕ) (xs : List α) (x : α) :
    (pushBounded cap xs x).length ≤ cap := by
  rw [pushBounded_length]
  omega

theorem pushBounded_not_nil {α : Type} (cap : ℕ) (hcap : 0 < cap) (xs : List α) (x : α) :
    pushBounded cap xs x ≠ [] := by
  intro h
  have := congrArg List.length h
  rw [pushBounded_length] at this
  simp at this
  omega

@[simp] theorem set_event_config (s : ECGState) (n : String) (c : Bool) :
    (s.set_event n c).config = s.config := by
  unfold ECGState.set_event
  split <;> rfl

@[simp] theorem set_event_ecg_data (s : ECGState) (n : String) (c : Bool) :
    (s.set_event n c).ecg_data = s.ecg_data := by
  unfold ECGState.set_event
  split <;> rfl

@[simp] theorem set_event_timestamps (s : ECGState) (n : String) (c : Bool) :
    (s.set_event n c).timestamps = s.timestamps := by
  unfold ECGState.set_event
  split <;> rfl

@[simp] theorem set_event_bpm_history (s : ECGState) (n : String) (c : Bool) :
    (s.set_event n c).bpm_history = s.bpm_history := by
  unfold ECGState.set_event
  split <;> rfl

@[simp] theorem set_event_bpm_timestamps (s : ECGState) (n : String) (c : Bool) :
    (s.set_event n c).bpm_timestamps = s.bpm_timestamps := by
  unfold ECGState.set_event
  split <;> rfl

@[simp] theorem set_event_rr_intervals (s : ECGState) (n : String) (c : Bool) :
    (s.set_event n c).rr_intervals = s.rr_intervals := by
  unfold ECGState.set_event
  split <;> rfl

@[simp] theorem set_event_qrs_widths (s : ECGState) (n : String) (c : Bool) :
    (s.set_event n c).qrs_widths = s.qrs_widths := by
  unfold ECGState.set_event
  split <;> rfl

@[simp] theorem set_event_qt_intervals (s : ECGState) (n : String) (c : Bool) :
    (s.set_event n c).qt_intervals = s.qt_intervals := by
  unfold ECGState.set_event
  split <;> rfl

@[simp] theorem set_event_event_timeline (s : ECGState) (n : String) (c : Bool) :
    (s.set_event n c).event_timeline = s.event_timeline := by
  unfold ECGState.set_event
  split <;> rfl

@[simp] theorem set_event_current_bpm (s : ECGState) (n : String) (c : Bool) :
    (s.set_event n c).current_bpm = s.current_bpm := by
  unfold ECGState.set_event
  split <;> rfl

@[simp] theorem set_event_last_peak_time (s : ECGState) (n : String) (c : Bool) :
    (s.set_event n c).last_peak_time = s.last_peak_time := by
  unfold ECGState.set_event
  split <;> rfl

@[simp] theorem set_event_last_signal_time (s : ECGState) (n : String) (c : Bool) :
    (s.set_event n c).last_signal_time = s.last_signal_time := by
  unfold ECGState.set_event
  split <;> rfl

theorem mem_set_event (s : ECGState) (n : String) (c : Bool) (m : String) :
    m ∈ (s.set_event n c).event_state ↔
      (if m = n then c = true else m ∈ s.event_state) := by
  unfold ECGState.set_event
  by_cases hc : c
  · subst hc
    simp only [if_pos]
    by_cases hmem : n ∈ s.event_state
    · rw [if_pos hmem]
      by_cases hm : m = n
      · subst hm
        simp [hmem]
      · simp [hm]
    · rw [if_neg hmem]
      by_cases hm : m = n
      · subst hm
        simp
      · simp [hm]
  · simp only [Bool.not_eq_true] at hc
    subst hc
    simp only [Bool.false_eq_true, if_false]
    by_cases hm : m = n
    · subst hm
      simp [List.mem_filter]
    · simp [List.mem_filter, hm]

theorem set_event_counts_self (s : ECGState) (n : String) (c : Bool) :
    (s.set_event n c).event_counts n =
      if c then s.event_counts n + 1 else s.event_counts n := by
  unfold ECGState.set_event
  by_cases hc : c <;> simp [hc]

theorem set_event_counts_le (s : ECGState) (n : String) (c : Bool) :
    CountsLe s (s.set_event n c) := by
  intro m
  unfold ECGState.set_event
  by_cases hc : c <;> simp [hc]
  by_cases hm : m = n <;> simp [hm]

theorem countsLe_refl (s : ECGState) : CountsLe s s := fun _ => le_refl _

theorem countsLe_trans {s s' s'' : ECGState} (h : CountsLe s s') (h' : CountsLe s' s'') :
    CountsLe s s'' := fun m => le_trans (h m) (h' m)

theorem countsLe_set_event {s s' : ECGState} (n : String) (c : Bool) (h : CountsLe s s') :
    CountsLe s (s'.set_event n c) :=
  countsLe_trans h (set_event_counts_le s' n c)

theorem countsLe_ite {s a b : ECGState} (c : Prop) [Decidable c]
    (ha : CountsLe s a) (hb : CountsLe s b) : CountsLe s (if c then a else b) := by
  split <;> assumption

theorem eventUpdateOnly_refl (s : ECGState) : EventUpdateOnly s s :=
  ⟨rfl, rfl, rfl, rfl, rfl, rfl, rfl, rfl, rfl, rfl, rfl, rfl⟩

theorem eventUpdateOnly_set_event {s s' : ECGState} (n : String) (c : Bool)
    (h : EventUpdateOnly s s') : EventUpdateOnly s (s'.set_event n c) := by
  obtain ⟨h1, h2, h3, h4, h5, h6, h7, h8, h9, h10, h11, h12⟩ := h
  exact ⟨by simp [h1], by simp [h2], by simp [h3], by simp [h4], by simp [h5], by simp [h6],
    by simp [h7], by simp [h8], by simp [h9], by simp [h10], by simp [h11], by simp [h12]⟩

theorem eventUpdateOnly_ite {s a b : ECGState} (c : Prop) [Decidable c]
    (ha : EventUpdateOnly s a) (hb : EventUpdateOnly s b) :
    EventUpdateOnly s (if c then a else b) := by
  split <;> assumption

theorem eventUpdateOnly_trans {s s' s'' : ECGState}
    (h : EventUpdateOnly s s') (h' : EventUpdateOnly s' s'') : EventUpdateOnly s s'' := by
  obtain ⟨h1, h2, h3, h4, h5, h6, h7, h8, h9, h10, h11, h12⟩ := h
  obtain ⟨g1, g2, g3, g4, g5, g6, g7, g8, g9, g10, g11, g12⟩ := h'
  exact ⟨g1.trans h1, g2.trans h2, g3.trans h3, g4.trans h4, g5.trans h5, g6.trans h6,
    g7.trans h7, g8.trans h8, g9.trans h9, g10.trans h10, g11.trans h11, g12.trans h12⟩

theorem detectRates_eventUpdateOnly (s : ECGState) (now : ℚ) :
    EventUpdateOnly s (s.detectRates now) := by
  unfold ECGState.detectRates
  repeat
    first
    | exact eventUpdateOnly_refl s
    | apply eventUpdateOnly_set_event

theorem detectRhythm_eventUpdateOnly (s : ECGState) :
    EventUpdateOnly s s.detectRhythm := by
  unfold ECGState.detectRhythm
  apply eventUpdateOnly_ite
  · repeat
      first
      | exact eventUpdateOnly_refl s
      | apply eventUpdateOnly_set_event
  · exact eventUpdateOnly_refl s

theorem detectQRSBlock_eventUpdateOnly (s : ECGState) :
    EventUpdateOnly s s.detectQRSBlock := by
  unfold ECGState.detectQRSBlock
  apply eventUpdateOnly_ite
  · apply eventUpdateOnly_set_event
    exact eventUpdateOnly_refl s
  · exact eventUpdateOnly_refl s

theorem detectQTBlock_eventUpdateOnly (s : ECGState) :
    EventUpdateOnly s s.detectQTBlock := by
  unfold ECGState.detectQTBlock
  apply eventUpdateOnly_ite
  · apply eventUpdateOnly_set_event
    apply eventUpdateOnly_set_event
    exact eventUpdateOnly_refl s
  · exact eventUpdateOnly_refl s

theorem detectRepol_eventUpdateOnly (s : ECGState) (v : ℤ) :
    EventUpdateOnly s (s.detectRepol v) := by
  apply eventUpdateOnly_set_event
  exact eventUpdateOnly_refl s

theorem detectMyo_eventUpdateOnly (s : ECGState) :
    EventUpdateOnly s s.detectMyo := by
  apply eventUpdateOnly_set_event
  exact eventUpdateOnly_refl s

theorem detect_events_eventUpdateOnly (s : ECGState) (v : ℤ) (t : ℚ) :
    EventUpdateOnly s (s.detect_events v t) := by
  unfold ECGState.detect_events
  exact eventUpdateOnly_trans
    (eventUpdateOnly_trans
      (eventUpdateOnly_trans
        (eventUpdateOnly_trans
          (eventUpdateOnly_trans (detectRates_eventUpdateOnly s t)
            (detectRhythm_eventUpdateOnly _))
          (detectQRSBlock_eventUpdateOnly _))
        (detectQTBlock_eventUpdateOnly _))
      (detectRepol_eventUpdateOnly _ v))
    (detectMyo_eventUpdateOnly _)

theorem countsLe_detect_blocks (s : ECGState) (v : ℤ) (t : ℚ) :
    CountsLe s (s.detect_events v t) := by
  have hRates : ∀ s' : ECGState, CountsLe s' (s'.detectRates t) := by
    intro s'
    unfold ECGState.detectRates
    repeat
      first
      | exact countsLe_refl s'
      | apply countsLe_set_event
  have hRhythm : ∀ s' : ECGState, CountsLe s' s'.detectRhythm := by
    intro s'
    unfold ECGState.detectRhythm
    apply countsLe_ite
    · repeat
        first
        | exact countsLe_refl s'
        | apply countsLe_set_event
    · exact countsLe_refl s'
  have hQRS : ∀ s' : ECGState, CountsLe s' s'.detectQRSBlock := by
    intro s'
    unfold ECGState.detectQRSBlock
    apply countsLe_ite
    · apply countsLe_set_event
      exact countsLe_refl s'
    · exact countsLe_refl s'
  have hQT : ∀ s' : ECGState, CountsLe s' s'.detectQTBlock := by
    intro s'
    unfold ECGState.detectQTBlock
    apply countsLe_ite
    · apply countsLe_set_event
      apply countsLe_set_event
      exact countsLe_refl s'
    · exact countsLe_refl s'
  have hRepol : ∀ s' : ECGState, CountsLe s' (s'.detectRepol v) := by
    intro s'
    apply countsLe_set_event
    exact countsLe_refl s'
  have hMyo : ∀ s' : ECGState, CountsLe s' s'.detectMyo := by
    intro s'
    apply countsLe_set_event
    exact countsLe_refl s'
  unfold ECGState.detect_events
  exact countsLe_trans
    (countsLe_trans
      (countsLe_trans
        (countsLe_trans (countsLe_trans (hRates s) (hRhythm _)) (hQRS _))
        (hQT _))
      (hRepol _))
    (hMyo _)

@[simp] theorem detect_events_config (s : ECGState) (v : ℤ) (t : ℚ) :
    (s.detect_events v t).config = s.config :=
  (detect_events_eventUpdateOnly s v t).1

@[simp] theorem detect_events_ecg_data (s : ECGState) (v : ℤ) (t : ℚ) :
    (s.detect_events v t).ecg_data = s.ecg_data :=
  (detect_events_eventUpdateOnly s v t).2.1

@[simp] theorem detect_events_timestamps (s : ECGState) (v : ℤ) (t : ℚ) :
    (s.detect_events v t).timestamps = s.timestamps :=
  (detect_events_eventUpdateOnly s v t).2.2.1

@[simp] theorem detect_events_bpm_history (s : ECGState) (v : ℤ) (t : ℚ) :
    (s.detect_events v t).bpm_history = s.bpm_history :=
  (detect_events_eventUpdateOnly s v t).2.2.2.1

@[simp] theorem detect_events_bpm_timestamps (s : ECGState) (v : ℤ) (t : ℚ) :
    (s.detect_events v t).bpm_timestamps = s.bpm_timestamps :=
  (detect_events_eventUpdateOnly s v t).2.2.2.2.1

@[simp] theorem detect_events_rr_intervals (s : ECGState) (v : ℤ) (t : ℚ) :
    (s.detect_events v t).rr_intervals = s.rr_intervals :=
  (detect_events_eventUpdateOnly s v t).2.2.2.2.2.1

@[simp] theorem detect_events_qrs_widths (s : ECGState) (v : ℤ) (t : ℚ) :
    (s.detect_events v t).qrs_widths = s.qrs_widths :=
  (detect_events_eventUpdateOnly s v t).2.2.2.2.2.2.1

@[simp] theorem detect_events_qt_intervals (s : ECGState) (v : ℤ) (t : ℚ) :
    (s.detect_events v t).qt_intervals = s.qt_intervals :=
  (detect_events_eventUpdateOnly s v t).2.2.2.2.2.2.2.1

@[simp] theorem detect_events_event_timeline (s : ECGState) (v : ℤ) (t : ℚ) :
    (s.detect_events v t).event_timeline = s.event_timeline :=
  (detect_events_eventUpdateOnly s v t).2.2.2.2.2.2.2.2.1

@[simp] theorem detect_events_current_bpm (s : ECGState) (v : ℤ) (t : ℚ) :
    (s.detect_events v t).current_bpm = s.current_bpm :=
  (detect_events_eventUpdateOnly s v t).2.2.2.2.2.2.2.2.2.1

theorem add_sample_fields (s : ECGState) (v : ℤ) (t : ℚ) :
    (s.add_sample v t).config = s.config ∧
    (s.add_sample v t).ecg_data = pushBounded s.config.ecg_maxlen s.ecg_data v ∧
    (s.add_sample v t).timestamps = pushBounded s.config.ecg_maxlen s.timestamps t ∧
    (∃ e, (s.add_sample v t).event_timeline =
      pushBounded s.config.ecg_maxlen s.event_timeline e) ∧
    (((s.add_sample v t).bpm_history = s.bpm_history ∧
      (s.add_sample v t).bpm_timestamps = s.bpm_timestamps ∧
      (s.add_sample v t).rr_intervals = s.rr_intervals ∧
      (s.add_sample v t).qrs_widths = s.qrs_widths ∧
      (s.add_sample v t).qt_intervals = s.qt_intervals ∧
      (s.add_sample v t).current_bpm = s.current_bpm) ∨
     (∃ rr : ℚ, 0.25 < rr ∧
      (s.add_sample v t).rr_intervals = pushBounded s.config.rr_maxlen s.rr_intervals rr ∧
      (s.add_sample v t).current_bpm = pyInt (60 / rr) ∧
      (s.add_sample v t).bpm_history =
        pushBounded s.config.bpm_maxlen s.bpm_history (pyInt (60 / rr)) ∧
      (s.add_sample v t).bpm_timestamps =
        pushBounded s.config.bpm_maxlen s.bpm_timestamps t ∧
      (s.add_sample v t).qt_intervals =
        pushBounded s.config.qt_maxlen s.qt_intervals (rr * 0.45) ∧
      (∃ w, (s.add_sample v t).qrs_widths =
        pushBounded s.config.qrs_maxlen s.qrs_widths w))) := by
  by_cases hbeat : v > s.config.r_threshold
  · cases hlp : s.last_peak_time with
    | none =>
      simp only [ECGState.add_sample, hlp, if_pos hbeat, detect_events_config,
        detect_events_ecg_data, detect_events_timestamps, detect_events_bpm_history,
        detect_events_bpm_timestamps, detect_events_rr_intervals, detect_events_qrs_widths,
        detect_events_qt_intervals, detect_events_event_timeline, detect_events_current_bpm]
      refine ⟨?_, ?_, ?_, ⟨_, rfl⟩, Or.inl ⟨?_, ?_, ?_, ?_, ?_, ?_⟩⟩ <;> first | rfl | trivial
    | some p =>
      by_cases hp : p = 0
      · simp only [ECGState.add_sample, hlp, hp, if_pos hbeat, if_pos rfl,
          detect_events_config, detect_events_ecg_data, detect_events_timestamps,
          detect_events_bpm_history, detect_events_bpm_timestamps, detect_events_rr_intervals,
          detect_events_qrs_widths, detect_events_qt_intervals, detect_events_event_timeline,
          detect_events_current_bpm]
        refine ⟨?_, ?_, ?_, ⟨_, rfl⟩, Or.inl ⟨?_, ?_, ?_, ?_, ?_, ?_⟩⟩ <;> first | rfl | trivial
      · by_cases hrr : t - p > 0.25
        · simp only [ECGState.add_sample, hlp, if_pos hbeat, if_neg hp, if_pos hrr,
            detect_events_config, detect_events_ecg_data, detect_events_timestamps,
            detect_events_bpm_history, detect_events_bpm_timestamps,
            detect_events_rr_intervals, detect_events_qrs_widths, detect_events_qt_intervals,
            detect_events_event_timeline, detect_events_current_bpm]
          refine ⟨?_, ?_, ?_, ⟨_, rfl⟩,
            Or.inr ⟨t - p, hrr, ?_, ?_, ?_, ?_, ?_, ⟨_, rfl⟩⟩⟩ <;> first | rfl | trivial
        · simp only [ECGState.add_sample, hlp, if_pos hbeat, if_neg hp, if_neg hrr,
            detect_events_config, detect_events_ecg_data, detect_events_timestamps,
            detect_events_bpm_history, detect_events_bpm_timestamps,
            detect_events_rr_intervals, detect_events_qrs_widths, detect_events_qt_intervals,
            detect_events_event_timeline, detect_events_current_bpm]
          refine ⟨?_, ?_, ?_, ⟨_, rfl⟩, Or.inl ⟨?_, ?_, ?_, ?_, ?_, ?_⟩⟩ <;> first | rfl | trivial
  · simp only [ECGState.add_sample, if_neg hbeat, detect_events_config,
      detect_events_ecg_data, detect_events_timestamps, detect_events_bpm_history,
      detect_events_bpm_timestamps, detect_events_rr_intervals, detect_events_qrs_widths,
      detect_events_qt_intervals, detect_events_event_timeline, detect_events_current_bpm]
    refine ⟨?_, ?_, ?_, ⟨_, rfl⟩, Or.inl ⟨?_, ?_, ?_, ?_, ?_, ?_⟩⟩ <;> first | rfl | trivial

theorem pushBounded_of_lt {α : Type} (cap : ℕ) (xs : List α) (x : α)
    (h : xs.length < cap) : pushBounded cap xs x = xs ++ [x] := by
  unfold pushBounded
  have h0 : xs.length + 1 - cap = 0 := by omega
  rw [h0, List.drop_zero]

theorem pushBounded_of_full {α : Type} (cap : ℕ) (xs : List α) (x : α)
    (hcap : 0 < cap) (h : xs.length = cap) : pushBounded cap xs x = xs.tail ++ [x] := by
  unfold pushBounded
  have h1 : xs.length + 1 - cap = 1 := by omega
  rw [h1, List.drop_append_of_le_length (by omega), List.drop_one]

theorem pushBounded_eq_rtake {α : Type} (cap : ℕ) (xs : List α) (x : α) :
    pushBounded cap xs x = (xs ++ [x]).rtake cap := by
  unfold pushBounded List.rtake
  simp

theorem take_append_explicit {α : Type} (l₁ l₂ : List α) (n : ℕ) :
    (l₁ ++ l₂).take n = l₁.take n ++ l₂.take (n - l₁.length) :=
  List.take_append_eq_append_take ..

theorem rtake_append_rtake {α : Type} (n : ℕ) (xs ys : List α) :
    ((xs.rtake n) ++ ys).rtake n = (xs ++ ys).rtake n := by
  rw [List.rtake_eq_reverse_take_reverse, List.rtake_eq_reverse_take_reverse,
    List.rtake_eq_reverse_take_reverse]
  rw [List.reverse_append, List.reverse_reverse, List.reverse_append]
  rw [take_append_explicit, take_append_explicit ys.reverse]
  rw [List.take_take]
  have hmin : min (n - ys.reverse.length) n = n - ys.reverse.length := by omega
  rw [hmin]

theorem rtake_of_length_le {α : Type} (n : ℕ) (l : List α) (h : l.length ≤ n) :
    l.rtake n = l := by
  rw [List.rtake_eq_reverse_take_reverse, List.take_of_length_le (by simpa using h),
    List.reverse_reverse]

theorem bufBound_initState (c : ECGConfig) (t0 : ℚ) : BufBound (initState c t0) := by
  refine ⟨?_, ?_, ?_, ?_, ?_, ?_, ?_, ?_⟩ <;> simp [initState]

theorem bufBound_reset (s : ECGState) (now : ℚ) : BufBound (s.reset now) := by
  refine ⟨?_, ?_, ?_, ?_, ?_, ?_, ?_, ?_⟩ <;> simp [ECGState.reset]

theorem bufBound_add_sample (s : ECGState) (v : ℤ) (t : ℚ) (h : BufBound s) :
    BufBound (s.add_sample v t) := by
  obtain ⟨hcfg, hecg, hts, ⟨e, htl⟩, hrest⟩ := add_sample_fields s v t
  obtain ⟨b1, b2, b3, b4, b5, b6, b7, b8⟩ := h
  unfold BufBound
  rw [hcfg, hecg, hts, htl]
  refine ⟨pushBounded_length_le _ _ _, pushBounded_length_le _ _ _,
    pushBounded_length_le _ _ _, ?_, ?_, ?_, ?_, ?_⟩ <;>
  · rcases hrest with ⟨e1, e2, e3, e4, e5, _⟩ | ⟨rr, _, f1, _, f2, f3, f4, ⟨w, f5⟩⟩
    · first
      | (rw [e1]; exact b4) | (rw [e2]; exact b5) | (rw [e3]; exact b6)
      | (rw [e4]; exact b7) | (rw [e5]; exact b8)
    · first
      | (rw [f1]; exact pushBounded_length_le _ _ _)
      | (rw [f2]; exact pushBounded_length_le _ _ _)
      | (rw [f3]; exact pushBounded_length_le _ _ _)
      | (rw [f4]; exact pushBounded_length_le _ _ _)
      | (rw [f5]; exact pushBounded_length_le _ _ _)

theorem bufBound_runOps (s : ECGState) (ops : List SessionOp) (h : BufBound s) :
    BufBound (runOps s ops) := by
  induction ops generalizing s with
  | nil => exact h
  | cons op rest ih =>
    cases op with
    | sample v t => exact ih _ (bufBound_add_sample s v t h)
    | reset now => exact ih _ (bufBound_reset s now)

theorem aligned_initState (c : ECGConfig) (t0 : ℚ) : Aligned (initState c t0) := by
  refine ⟨?_, ?_, ?_⟩ <;> simp [initState]

theorem aligned_reset (s : ECGState) (now : ℚ) : Aligned (s.reset now) := by
  refine ⟨?_, ?_, ?_⟩ <;> simp [ECGState.reset]

theorem aligned_add_sample (s : ECGState) (v : ℤ) (t : ℚ) (h : Aligned s) :
    Aligned (s.add_sample v t) := by
  obtain ⟨hcfg, hecg, hts, ⟨e, htl⟩, hrest⟩ := add_sample_fields s v t
  obtain ⟨a1, a2, a3⟩ := h
  unfold Aligned
  rw [hecg, hts, htl]
  refine ⟨?_, ?_, ?_⟩
  · rw [pushBounded_length, pushBounded_length, a1]
  · rw [pushBounded_length, pushBounded_length, a2]
  · rcases hrest with ⟨e1, e2, _⟩ | ⟨rr, _, _, _, f2, f3, _⟩
    · rw [e1, e2]
      exact a3
    · rw [f2, f3, pushBounded_length, pushBounded_length, a3]

theorem aligned_runOps (s : ECGState) (ops : List SessionOp) (h : Aligned s) :
    Aligned (runOps s ops) := by
  induction ops generalizing s with
  | nil => exact h
  | cons op rest ih =>
    cases op with
    | sample v t => exact ih _ (aligned_add_sample s v t h)
    | reset now => exact ih _ (aligned_reset s now)

theorem pyInt_bpm_bound (rr : ℚ) (h : 0.25 < rr) :
    0 ≤ pyInt (60 / rr) ∧ pyInt (60 / rr) ≤ 239 := by
  have hrrpos : (0 : ℚ) < rr := lt_trans (by norm_num) h
  have hqpos : (0 : ℚ) ≤ 60 / rr := le_of_lt (div_pos (by norm_num) hrrpos)
  have hqlt : (60 : ℚ) / rr < 240 := by
    rw [div_lt_iff hrrpos]
    nlinarith
  constructor
  · unfold pyInt
    rw [if_pos hqpos]
    exact Int.floor_nonneg.mpr hqpos
  · unfold pyInt
    rw [if_pos hqpos]
    have : ⌊(60 : ℚ) / rr⌋ < 240 := Int.floor_lt.mpr (by exact_mod_cast hqlt)
    omega

theorem bpm_bound_add_sample (s : ECGState) (v : ℤ) (t : ℚ)
    (h0 : 0 ≤ s.current_bpm) (h1 : s.current_bpm ≤ 239) :
    0 ≤ (s.add_sample v t).current_bpm ∧ (s.add_sample v t).current_bpm ≤ 239 := by
  obtain ⟨-, -, -, -, hrest⟩ := add_sample_fields s v t
  rcases hrest with ⟨-, -, -, -, -, e6⟩ | ⟨rr, hrr, -, f2, -⟩
  · rw [e6]
    exact ⟨h0, h1⟩
  · rw [f2]
    exact pyInt_bpm_bound rr hrr

theorem bpm_bound_runOps (s : ECGState) (ops : List SessionOp)
    (h0 : 0 ≤ s.current_bpm) (h1 : s.current_bpm ≤ 239) :
    0 ≤ (runOps s ops).current_bpm ∧ (runOps s ops).current_bpm ≤ 239 := by
  induction ops generalizing s with
  | nil => exact ⟨h0, h1⟩
  | cons op rest ih =>
    cases op with
    | sample v t =>
      obtain ⟨g0, g1⟩ := bpm_bound_add_sample s v t h0 h1
      exact ih _ g0 g1
    | reset now =>
      exact ih (s.reset now) (by simp [ECGState.reset]) (by simp [ECGState.reset])

theorem divE_ok (a b : ℚ) (h : b ≠ 0) : divE a b = .ok (a / b) := by
  unfold divE
  rw [if_neg h]

theorem except_ok_bind {α β : Type} (a : α) (f : α → Except String β) :
    (Except.ok a >>= f) = f a := rfl

theorem except_pure_eq_ok {α : Type} (a : α) : (pure a : Except String α) = .ok a := rfl

theorem detectRhythmE_eq (s : ECGState) : s.detectRhythmE = .ok s.detectRhythm := by
  unfold ECGState.detectRhythmE ECGState.detectRhythm
  by_cases h : 6 < s.rr_intervals.length
  · have hne : ((s.rr_intervals.length : ℚ)) ≠ 0 := by
      exact_mod_cast Nat.cast_ne_zero.mpr (by omega)
    rw [if_pos h, if_pos h, divE_ok _ _ hne, except_ok_bind, divE_ok _ _ hne, except_ok_bind,
      except_pure_eq_ok]
  · rw [if_neg h, if_neg h, except_pure_eq_ok]

theorem detectQRSBlockE_eq (s : ECGState) : s.detectQRSBlockE = .ok s.detectQRSBlock := by
  unfold ECGState.detectQRSBlockE ECGState.detectQRSBlock
  by_cases h : 5 < s.qrs_widths.length
  · have hne : ((s.qrs_widths.length : ℚ)) ≠ 0 := by
      exact_mod_cast Nat.cast_ne_zero.mpr (by omega)
    rw [if_pos h, if_pos h, divE_ok _ _ hne, except_ok_bind, except_pure_eq_ok]
  · rw [if_neg h, if_neg h, except_pure_eq_ok]

theorem detectQTBlockE_eq (s : ECGState) : s.detectQTBlockE = .ok s.detectQTBlock := by
  unfold ECGState.detectQTBlockE ECGState.detectQTBlock
  by_cases h : 5 < s.qt_intervals.length
  · have hne : ((s.qt_intervals.length : ℚ)) ≠ 0 := by
      exact_mod_cast Nat.cast_ne_zero.mpr (by omega)
    rw [if_pos h, if_pos h, divE_ok _ _ hne, except_ok_bind, except_pure_eq_ok]
  · rw [if_neg h, if_neg h, except_pure_eq_ok]

theorem detect_eventsE_eq (s : ECGState) (v : ℤ) (t : ℚ) :
    s.detect_eventsE v t = .ok (s.detect_events v t) := by
  unfold ECGState.detect_eventsE ECGState.detect_events
  rw [detectRhythmE_eq, except_ok_bind, detectQRSBlockE_eq, except_ok_bind,
    detectQTBlockE_eq, except_ok_bind, except_pure_eq_ok]

theorem add_sampleE_eq (s : ECGState) (v : ℤ) (t : ℚ) :
    s.add_sampleE v t = .ok (s.add_sample v t) := by
  by_cases hbeat : v > s.config.r_threshold
  · cases hlp : s.last_peak_time with
    | none =>
      simp only [ECGState.add_sampleE, ECGState.add_sample, hlp, if_pos hbeat,
        except_pure_eq_ok, except_ok_bind, detect_eventsE_eq]
    | some p =>
      by_cases hp : p = 0
      · simp only [ECGState.add_sampleE, ECGState.add_sample, hlp, hp, if_pos hbeat,
          if_pos rfl, if_true, except_pure_eq_ok, except_ok_bind, detect_eventsE_eq]
      · by_cases hrr : t - p > 0.25
        · have hrne : t - p ≠ 0 := by
            intro h0
            rw [h0] at hrr
            norm_num at hrr
          have h100 : (100000 : ℚ) ≠ 0 := by norm_num
          simp only [ECGState.add_sampleE, ECGState.add_sample, hlp, if_pos hbeat,
            if_neg hp, if_pos hrr, divE_ok _ _ hrne, divE_ok _ _ h100,
            except_pure_eq_ok, except_ok_bind, detect_eventsE_eq]
        · simp only [ECGState.add_sampleE, ECGState.add_sample, hlp, if_pos hbeat,
            if_neg hp, if_neg hrr, except_pure_eq_ok, except_ok_bind, detect_eventsE_eq]
  · simp only [ECGState.add_sampleE, ECGState.add_sample, if_neg hbeat,
      except_pure_eq_ok, except_ok_bind, detect_eventsE_eq]

theorem mem_set_event_other (s : ECGState) (n : String) (c : Bool) (m : String)
    (h : m ≠ n) : m ∈ (s.set_event n c).event_state ↔ m ∈ s.event_state := by
  rw [mem_set_event, if_neg h]

theorem mem_set_event_self (s : ECGState) (n : String) (c : Bool) :
    n ∈ (s.set_event n c).event_state ↔ c = true := by
  rw [mem_set_event, if_pos rfl]

theorem myocarditisScore_set_event_other (s : ECGState) (n : String) (c : Bool)
    (h1 : "Tachycardia" ≠ n) (h2 : "Irregular Rhythm" ≠ n)
    (h3 : "Early Repolarization / ST Elevation (possible)" ≠ n) :
    myocarditisScore (s.set_event n c) = myocarditisScore s := by
  unfold myocarditisScore
  simp only [mem_set_event_other _ n c _ h1, mem_set_event_other _ n c _ h2,
    mem_set_event_other _ n c _ h3]

theorem detectMyo_spec (s : ECGState) :
    ("Myocarditis (possible)" ∈ s.detectMyo.event_state ↔ 2 ≤ myocarditisScore s.detectMyo) := by
  unfold ECGState.detectMyo
  rw [mem_set_event_self, myocarditisScore_set_event_other _ _ _ (by decide) (by decide)
    (by decide)]
  simp [GE.ge]

theorem countsLe_detect_foldl (s : ECGState) (evals : List (ℤ × ℚ)) (name : String) :
    s.event_counts name ≤
      (evals.foldl (fun st q => st.detect_events q.1 q.2) s).event_counts name := by
  induction evals generalizing s with
  | nil => exact le_refl _
  | cons q rest ih =>
    rw [List.foldl_cons]
    exact le_trans (countsLe_detect_blocks s q.1 q.2 name) (ih _)

theorem ecg_data_foldl (samples : List (ℤ × ℚ)) (s : ECGState)
    (h : s.ecg_data.length ≤ s.config.ecg_maxlen) :
    (samples.foldl (fun st q => st.add_sample q.1 q.2) s).ecg_data =
      (s.ecg_data ++ samples.map Prod.fst).rtake s.config.ecg_maxlen := by
  induction samples generalizing s with
  | nil =>
    simp only [List.foldl_nil, List.map_nil, List.append_nil]
    exact (rtake_of_length_le _ _ h).symm
  | cons q rest ih =>
    obtain ⟨hcfg, hecg, -⟩ := add_sample_fields s q.1 q.2
    rw [List.foldl_cons,
      ih (s.add_sample q.1 q.2)
        (by rw [hecg, hcfg]; exact pushBounded_length_le _ _ _),
      hecg, hcfg, pushBounded_eq_rtake, rtake_append_rtake]
    simp

/-- C1 counterexample: on a session whose `current_bpm` is 40 (below the
default `brady_bpm` of 50), two consecutive `detect_events` passes leave
"Bradycardia" active throughout, yet its count goes from 1 to 2: the count
increases on a sample where the event was already active and remains
active. -/
theorem C1_counterexample :
    (({ initState defaultConfig 0 with current_bpm := 40 } : ECGState).detect_events 0
        0).event_counts "Bradycardia" = 1 ∧
    "Bradycardia" ∈ (({ initState defaultConfig 0 with current_bpm := 40 } :
        ECGState).detect_events 0 0).event_state ∧
    "Bradycardia" ∈ ((({ initState defaultConfig 0 with current_bpm := 40 } :
        ECGState).detect_events 0 0).detect_events 0 0).event_state ∧
    ((({ initState defaultConfig 0 with current_bpm := 40 } : ECGState).detect_events 0
        0).detect_events 0 0).event_counts "Bradycardia" = 2 := by
  norm_num +decide [initState, defaultConfig, ECGState.detect_events, ECGState.detectRates,
    ECGState.detectRhythm, ECGState.detectQRSBlock, ECGState.detectQTBlock,
    ECGState.detectRepol, ECGState.detectMyo, myocarditisScore, ECGState.set_event]

/-- C1 (amended): `event_counts[name]` is non-decreasing over any sequence
of `detect_events` calls, and `set_event` increases the count by exactly 1
on every call whose condition is true — also when the event was already
active — and leaves it unchanged on a false condition. -/
theorem C1_count_monotone :
    (∀ (s : ECGState) (evals : List (ℤ × ℚ)) (name : String),
      s.event_counts name ≤
        (evals.foldl (fun st q => st.detect_events q.1 q.2) s).event_counts name) ∧
    (∀ (s : ECGState) (name : String) (c : Bool),
      (s.set_event name c).event_counts name =
        if c then s.event_counts name + 1 else s.event_counts name) :=
  ⟨countsLe_detect_foldl, set_event_counts_self⟩

/-- C2 counterexample: constructing a Config with `sample_rate = 0` and
`brady_bpm = 100 ≥ tachy_bpm = 50` succeeds (no error is raised), so
construction does not fail fast on invalid thresholds. -/
theorem C2_counterexample :
    ECGConfig.construct 0 15000 100 50 150 3.5 120 1200 60 30 30 =
      .ok ⟨0, 15000, 100, 50, 150, 3.5, 120, 1200, 60, 30, 30⟩ ∧
    (0 : ℤ) ≤ 0 ∧ (50 : ℤ) ≤ 100 :=
  ⟨rfl, by decide, by decide⟩

/-- C2 (amended): the Config constructor performs no validation at all —
for every parameter combination, including `sample_rate ≤ 0` or
`brady_bpm ≥ tachy_bpm`, construction succeeds and ingestion can start with
the invalid Config. -/
theorem C2_no_validation :
    ∀ (sr rt bb tb vb : ℤ) (asys : ℚ) (bs : ℤ) (bm rm qm qtm : ℕ),
      ECGConfig.construct sr rt bb tb vb asys bs bm rm qm qtm =
        .ok ⟨sr, rt, bb, tb, vb, asys, bs, bm, rm, qm, qtm⟩ :=
  fun _ _ _ _ _ _ _ _ _ _ _ => rfl

/-- C3 counterexample: a beat at time 0.0 (so `last_peak_time = 0.0`)
followed by a beat at time 1.0 — a previous beat exists and the elapsed
time 1.0 exceeds 0.25 — records nothing: `rr_intervals` stays empty and
`current_bpm` stays 0, because `if self.last_peak_time:` treats the
timestamp 0.0 like `None`.  The claim predicts RR = 1.0 is appended and
`current_bpm = 60`. -/
theorem C3_counterexample :
    ((initState defaultConfig 0).add_sample 20000 0).last_peak_time = some 0 ∧
    ((1 : ℚ) - 0 > 0.25) ∧
    (((initState defaultConfig 0).add_sample 20000 0).add_sample 20000 1).rr_intervals = [] ∧
    (((initState defaultConfig 0).add_sample 20000 0).add_sample 20000 1).current_bpm = 0 := by
  norm_num +decide [initState, defaultConfig, ECGState.add_sample, ECGState.detect_events,
    ECGState.detectRates, ECGState.detectRhythm, ECGState.detectQRSBlock,
    ECGState.detectQTBlock, ECGState.detectRepol, ECGState.detectMyo, myocarditisScore,
    ECGState.set_event, ECGState.active_cardiac_flags, pushBounded, ECGConfig.ecg_maxlen]

/-- C3 (amended): for every call `add_sample(value, t)` with
`value > r_threshold`, if a previous beat exists at a timestamp `p ≠ 0.0`
and `t - p > 0.25`, then RR = `t - p` is appended to `rr_intervals`,
`current_bpm` becomes the truncation of `60 / RR`, `current_bpm` and `t`
are appended to `bpm_history`/`bpm_timestamps`, RR × 0.45 to
`qt_intervals`, and `0.08 + |value − r_threshold| / 100000` to
`qrs_widths`.  For `p = 0.0` the beat is treated as if no previous beat
existed (Python truthiness). -/
theorem C3_beat_metrics (s : ECGState) (v : ℤ) (t p : ℚ)
    (hlp : s.last_peak_time = some p) (hp : p ≠ 0)
    (hv : v > s.config.r_threshold) (hrr : t - p > 0.25) :
    (s.add_sample v t).rr_intervals =
      pushBounded s.config.rr_maxlen s.rr_intervals (t - p) ∧
    (s.add_sample v t).current_bpm = pyInt (60 / (t - p)) ∧
    (s.add_sample v t).bpm_history =
      pushBounded s.config.bpm_maxlen s.bpm_history (pyInt (60 / (t - p))) ∧
    (s.add_sample v t).bpm_timestamps =
      pushBounded s.config.bpm_maxlen s.bpm_timestamps t ∧
    (s.add_sample v t).qt_intervals =
      pushBounded s.config.qt_maxlen s.qt_intervals ((t - p) * 0.45) ∧
    (s.add_sample v t).qrs_widths =
      pushBounded s.config.qrs_maxlen s.qrs_widths
        (0.08 + |((v : ℚ) - (s.config.r_threshold : ℚ))| / 100000) := by
  simp only [ECGState.add_sample, hlp, if_pos hv, if_neg hp, if_pos hrr,
    detect_events_config, detect_events_rr_intervals, detect_events_current_bpm,
    detect_events_bpm_history, detect_events_bpm_timestamps, detect_events_qt_intervals,
    detect_events_qrs_widths]
  refine ⟨?_, ?_, ?_, ?_, ?_, ?_⟩ <;> first | rfl | trivial

/-- C3 witness: a beat at time 5 then a beat of amplitude 20000 at time 6
(previous beat timestamp 5 ≠ 0, elapsed 1 s > 0.25 s) appends all five
derived measurements. -/
theorem C3_beat_metrics_witness :
    (((initState defaultConfig 0).add_sample 20000 5).add_sample 20000 6).rr_intervals =
      pushBounded ((initState defaultConfig 0).add_sample 20000 5).config.rr_maxlen
        ((initState defaultConfig 0).add_sample 20000 5).rr_intervals (6 - 5) ∧
    (((initState defaultConfig 0).add_sample 20000 5).add_sample 20000 6).current_bpm =
      pyInt (60 / (6 - 5)) ∧
    (((initState defaultConfig 0).add_sample 20000 5).add_sample 20000 6).bpm_history =
      pushBounded ((initState defaultConfig 0).add_sample 20000 5).config.bpm_maxlen
        ((initState defaultConfig 0).add_sample 20000 5).bpm_history (pyInt (60 / (6 - 5))) ∧
    (((initState defaultConfig 0).add_sample 20000 5).add_sample 20000 6).bpm_timestamps =
      pushBounded ((initState defaultConfig 0).add_sample 20000 5).config.bpm_maxlen
        ((initState defaultConfig 0).add_sample 20000 5).bpm_timestamps 6 ∧
    (((initState defaultConfig 0).add_sample 20000 5).add_sample 20000 6).qt_intervals =
      pushBounded ((initState defaultConfig 0).add_sample 20000 5).config.qt_maxlen
        ((initState defaultConfig 0).add_sample 20000 5).qt_intervals ((6 - 5) * 0.45) ∧
    (((initState defaultConfig 0).add_sample 20000 5).add_sample 20000 6).qrs_widths =
      pushBounded ((initState defaultConfig 0).add_sample 20000 5).config.qrs_maxlen
        ((initState defaultConfig 0).add_sample 20000 5).qrs_widths
        (0.08 + |((20000 : ℚ) -
          (((initState defaultConfig 0).add_sample 20000 5).config.r_threshold : ℚ))| /
          100000) :=
  C3_beat_metrics ((initState defaultConfig 0).add_sample 20000 5) 20000 6 5
    (by norm_num +decide [initState, defaultConfig, ECGState.add_sample,
      ECGState.detect_events, ECGState.detectRates, ECGState.detectRhythm,
      ECGState.detectQRSBlock, ECGState.detectQTBlock, ECGState.detectRepol,
      ECGState.detectMyo, myocarditisScore, ECGState.set_event,
      ECGState.active_cardiac_flags, pushBounded, ECGConfig.ecg_maxlen])
    (by norm_num)
    (by norm_num +decide [initState, defaultConfig, ECGState.add_sample,
      ECGState.detect_events, ECGState.detectRates, ECGState.detectRhythm,
      ECGState.detectQRSBlock, ECGState.detectQTBlock, ECGState.detectRepol,
      ECGState.detectMyo, myocarditisScore, ECGState.set_event,
      ECGState.active_cardiac_flags, pushBounded, ECGConfig.ecg_maxlen])
    (by norm_num)

/-- C4: over every sequence of `add_sample`/`reset` operations from a fresh
session, every bounded buffer stays within its configured capacity; and a
bounded append below capacity appends without eviction, while at full
capacity it evicts exactly the oldest element, keeping the rest in order
(strict FIFO). -/
theorem C4_capacity_fifo :
    (∀ (cfg : ECGConfig) (t0 : ℚ) (ops : List SessionOp),
      BufBound (runOps (initState cfg t0) ops)) ∧
    (∀ (cap : ℕ) (xs : List ℤ) (x : ℤ),
      xs.length < cap → pushBounded cap xs x = xs ++ [x]) ∧
    (∀ (cap : ℕ) (xs : List ℤ) (x : ℤ),
      0 < cap → xs.length = cap → pushBounded cap xs x = xs.tail ++ [x]) :=
  ⟨fun cfg t0 ops => bufBound_runOps _ ops (bufBound_initState cfg t0),
   fun cap xs x h => pushBounded_of_lt cap xs x h,
   fun cap xs x hc h => pushBounded_of_full cap xs x hc h⟩

/-- C4 witness: the capacity bound after one sample on the default config,
an append below capacity, and a FIFO eviction at full capacity. -/
theorem C4_capacity_fifo_witness :
    BufBound (runOps (initState defaultConfig 0) [SessionOp.sample 1 1]) ∧
    (([(5 : ℤ)].length < 2 ∧ pushBounded 2 [(5 : ℤ)] 7 = [5, 7]) ∧
     (0 < 2 ∧ [(5 : ℤ), 6].length = 2 ∧ pushBounded 2 [(5 : ℤ), 6] 7 = [6, 7])) :=
  ⟨C4_capacity_fifo.1 defaultConfig 0 [SessionOp.sample 1 1],
   ⟨by decide, C4_capacity_fifo.2.1 2 [5] 7 (by decide)⟩,
   ⟨by decide, by decide, C4_capacity_fifo.2.2 2 [5, 6] 7 (by decide) (by decide)⟩⟩

/-- C5: after any sequence of `add_sample`/`reset` operations on a fresh
session, `ecg_data`, `timestamps` and `event_timeline` have equal length
and equal capacity, and `bpm_history`/`bpm_timestamps` have equal
length. -/
theorem C5_alignment :
    ∀ (cfg : ECGConfig) (t0 : ℚ) (ops : List SessionOp),
      Aligned (runOps (initState cfg t0) ops) ∧
      (runOps (initState cfg t0) ops).ecgDataCap =
        (runOps (initState cfg t0) ops).timestampsCap ∧
      (runOps (initState cfg t0) ops).timestampsCap =
        (runOps (initState cfg t0) ops).eventTimelineCap :=
  fun cfg t0 ops => ⟨aligned_runOps _ ops (aligned_initState cfg t0), rfl, rfl⟩

/-- C6: with every division routed through a checked divide,
`add_sample` (which runs `detect_events`) and `detect_events` itself never
produce an error, on every state, value and timestamp: every division in
the source is guarded (`rr > 0.25` before `60 / rr`; length > 6 resp. > 5
before the RR/QRS/QT statistics), so the core is total after
construction. -/
theorem C6_never_raises :
    ∀ (s : ECGState) (v : ℤ) (t : ℚ),
      s.add_sampleE v t = .ok (s.add_sample v t) ∧
      s.detect_eventsE v t = .ok (s.detect_events v t) :=
  fun s v t => ⟨add_sampleE_eq s v t, detect_eventsE_eq s v t⟩

/-- C7: in every detection pass, Myocarditis (possible) ends active iff at
least 2 of Tachycardia, Irregular Rhythm and Early Repolarization are
active in the pass's post-update active set (the final state; the
myocarditis step itself does not change those three flags). -/
theorem C7_myocarditis_composite :
    ∀ (s : ECGState) (v : ℤ) (t : ℚ),
      ("Myocarditis (possible)" ∈ (s.detect_events v t).event_state ↔
        2 ≤ myocarditisScore (s.detect_events v t)) := by
  intro s v t
  unfold ECGState.detect_events
  exact detectMyo_spec _

/-- C8: with the reset time an explicit input, `reset` is idempotent —
resetting twice yields exactly the state of the single last reset, for
every state and times. -/
theorem C8_reset_idempotent :
    ∀ (s : ECGState) (t t' : ℚ), (s.reset t').reset t = s.reset t :=
  fun _ _ _ => rfl

/-- C9: feeding any sequence of `(value, timestamp)` samples into a fresh
session and reading the raw series back through the snapshot copy returns
exactly the last `ecg_maxlen` written values, in insertion order, with no
numeric transformation. -/
theorem C9_roundtrip :
    ∀ (cfg : ECGConfig) (t0 : ℚ) (samples : List (ℤ × ℚ)),
      snapshotRaw (samples.foldl (fun st q => st.add_sample q.1 q.2) (initState cfg t0)) =
        (samples.map Prod.fst).rtake cfg.ecg_maxlen := by
  intro cfg t0 samples
  unfold snapshotRaw
  rw [ecg_data_foldl samples (initState cfg t0) (by simp [initState])]
  simp [initState]

/-- C10: after any operation sequence on a fresh session `current_bpm`
stays in `[0, 239]`; a fresh session starts at 0; and every `add_sample`
either leaves `current_bpm` unchanged or sets it to the truncation of
`60 / rr` for some `rr > 0.25`. -/
theorem C10_bpm_range :
    (∀ (cfg : ECGConfig) (t0 : ℚ) (ops : List SessionOp),
      0 ≤ (runOps (initState cfg t0) ops).current_bpm ∧
      (runOps (initState cfg t0) ops).current_bpm ≤ 239) ∧
    (∀ (cfg : ECGConfig) (t0 : ℚ), (initState cfg t0).current_bpm = 0) ∧
    (∀ (s : ECGState) (v : ℤ) (t : ℚ),
      (s.add_sample v t).current_bpm = s.current_bpm ∨
      ∃ rr : ℚ, 0.25 < rr ∧ (s.add_sample v t).current_bpm = pyInt (60 / rr)) := by
  refine ⟨?_, fun _ _ => rfl, ?_⟩
  · intro cfg t0 ops
    exact bpm_bound_runOps _ ops (by simp [initState]) (by simp [initState])
  · intro s v t
    obtain ⟨-, -, -, -, hrest⟩ := add_sample_fields s v t
    rcases hrest with ⟨-, -, -, -, -, e6⟩ | ⟨rr, hrr, -, f2, -⟩
    · exact Or.inl e6
    · exact Or.inr ⟨rr, hrr, f2⟩

end PulseECG
